import Mathlib

/-!
Verification of the zinc64 C64 emulator core: the Datassette tape device
(`src/device/datassette.rs`) and the VIC-II register bank
(`src/video/vic.rs`).  Machine integers (`u8`, `u16`, `u32`) are embedded
as `Nat` with the source's explicit masks; fallible paths (Rust `panic!`)
are embedded as `Option`.
-/

/- ### Shared wires (Pin, IoPort) and the tape source.
The `Pin`, `IoPort` and `Tape` types live in the `zinc64-core` crate whose
module files are not present under src/; they are modelled from the spec. -/

/-- Modelled from the spec: `Pin` (§4.4), a one-bit signal with an `active`
attribute, mutated via `set_active` and observed via `get_active`. -/
structure Pin where
  active : Bool
deriving DecidableEq

/-- Modelled from the spec: `Pin::set_active`. -/
def Pin.set_active (_p : Pin) (level : Bool) : Pin :=
  { active := level }

/-- Modelled from the spec: `Pin::get_active`. -/
def Pin.get_active (p : Pin) : Bool :=
  p.active

/-- Modelled from the spec: `IoPort` (§4.4), an eight-bit bidirectional port
with a `direction_mask` (1 = output bit of the owning chip), an
`output_bits` latch written by the owner and an `input_bits` latch written
by peers. -/
structure IoPort where
  direction_mask : Nat
  output_bits : Nat
  input_bits : Nat
deriving DecidableEq

/-- Modelled from the spec: `IoPort::get_value` — the observable value,
fused bit by bit: output-direction bits come from `output_bits`,
input-direction bits from `input_bits`. -/
def IoPort.get_value (p : IoPort) : Nat :=
  (p.output_bits &&& p.direction_mask) ||| (p.input_bits &&& (p.direction_mask ^^^ 0xFF))

/-- Modelled from the spec: `IoPort::set_input_bit`, used by the Datassette
to drive the switch-sense line into the CPU's input latch. -/
def IoPort.set_input_bit (p : IoPort) (n : Nat) (level : Bool) : IoPort :=
  { p with input_bits :=
      if level then p.input_bits ||| (1 <<< n)
      else p.input_bits &&& (0xFF ^^^ (1 <<< n)) }

/-- Modelled from the spec: the `Tape` trait (§6) — a positionable sequence
of pulse lengths with `read_pulse` (advances the position, empty at EOF)
and `seek`. -/
structure Tape where
  data : List Nat
  pos : Nat
deriving DecidableEq

/-- Modelled from the spec: `Tape::read_pulse` returns the pulse length at
the current position and advances, or `none` at end of tape. -/
def Tape.read_pulse (t : Tape) : Option Nat × Tape :=
  match t.data.drop t.pos with
  | [] => (none, t)
  | p :: _ => (some p, { t with pos := t.pos + 1 })

/-- Modelled from the spec: `Tape::seek`. -/
def Tape.seek (t : Tape) (p : Nat) : Tape :=
  { t with pos := p }

/- ### Pulse (src/device/datassette.rs, lines 57-85). -/

/-- `const DUTY_CYCLE: u32 = 50`. -/
def DUTY_CYCLE : Nat := 50

/-- `Pulse`: one tape pulse as a countdown (`remaining_cycles`) with a
duty-cycle low phase (`low_cycles`). -/
structure Pulse where
  low_cycles : Nat
  remaining_cycles : Nat
deriving DecidableEq

/-- `Pulse::new(length, duty)`: the arguments are `u32`, so the product
`length * (100 - duty)` wraps modulo `2^32` before the division. -/
def Pulse.new (length duty : Nat) : Pulse :=
  { low_cycles := length * (100 - duty) % 4294967296 / 100
    remaining_cycles := length }

/-- `Pulse::is_done`. -/
def Pulse.is_done (p : Pulse) : Bool :=
  p.remaining_cycles == 0

/-- `Pulse::advance`: decrement `remaining_cycles`; return `true` (high)
when the low phase is exhausted, else consume one low cycle and return
`false` (low).  The source decrements a `u32`; under the documented
contract (`advance` only when not done) no underflow occurs, so `Nat`
subtraction coincides with it. -/
def Pulse.advance (p : Pulse) : Bool × Pulse :=
  let r := p.remaining_cycles - 1
  if p.low_cycles == 0 then
    (true, { p with remaining_cycles := r })
  else
    (false, { low_cycles := p.low_cycles - 1, remaining_cycles := r })

/-- Iterated `advance`: the list of levels returned by `n` successive calls
and the final pulse state. -/
def Pulse.run (p : Pulse) : Nat → List Bool × Pulse
  | 0 => ([], p)
  | n + 1 =>
    let (b, p') := p.advance
    let (bs, p'') := p'.run n
    (b :: bs, p'')

/- ### Datassette (src/device/datassette.rs, lines 87-176).
The Rust struct borrows the CIA flag pin and the CPU I/O port through
`Rc<RefCell<_>>`; the embedding folds both wires into the device state. -/

/-- The Datassette device state together with its two borrowed wires. -/
structure Datassette where
  cia_flag : Pin
  cpu_io_port : IoPort
  playing : Bool
  tape : Option Tape
  current_pulse : Pulse
deriving DecidableEq

/-- `Datassette::new`. -/
def Datassette.new (cia_flag : Pin) (cpu_io_port : IoPort) : Datassette :=
  { cia_flag := cia_flag
    cpu_io_port := cpu_io_port
    playing := false
    tape := none
    current_pulse := Pulse.new 0 DUTY_CYCLE }

/-- `Datassette::attach`. -/
def Datassette.attach (s : Datassette) (tape : Tape) : Datassette :=
  { s with tape := some tape }

/-- `Datassette::is_playing`: `playing` AND the motor bit (bit 5,
`ControlPort::CassetteMotor`) of the I/O port's observable value is LOW
(0 = motor spins). -/
def Datassette.is_playing (s : Datassette) : Bool :=
  s.playing && !(s.cpu_io_port.get_value.testBit 5)

/-- `Datassette::stop`: drive switch sense (bit 4) HIGH, clear `playing`.
The source also emits a log line, which has no state effect. -/
def Datassette.stop (s : Datassette) : Datassette :=
  { s with cpu_io_port := s.cpu_io_port.set_input_bit 4 true
           playing := false }

/-- `Datassette::play`: if a tape is attached, drive switch sense (bit 4)
LOW and set `playing`; otherwise do nothing. -/
def Datassette.play (s : Datassette) : Datassette :=
  if s.tape.isSome then
    { s with cpu_io_port := s.cpu_io_port.set_input_bit 4 false
             playing := true }
  else s

/-- `Datassette::detach`: `stop()` then remove the tape. -/
def Datassette.detach (s : Datassette) : Datassette :=
  { s.stop with tape := none }

/-- `Datassette::reset`. -/
def Datassette.reset (s : Datassette) : Datassette :=
  { s with cpu_io_port := s.cpu_io_port.set_input_bit 4 true
           playing := false
           current_pulse := Pulse.new 0 DUTY_CYCLE
           tape := s.tape.map (fun t => t.seek 0) }

/-- `Datassette::clock`: when playing with a tape attached, refill the
current pulse from the tape when it is done (auto-stopping at end of
tape), then advance the pulse and drive the CIA flag pin with the
returned level. -/
def Datassette.clock (s : Datassette) : Datassette :=
  if s.is_playing && s.tape.isSome then
    let s1 :=
      if s.current_pulse.is_done then
        let pm : Option Nat × Option Tape :=
          match s.tape with
          | some t => let (r, t') := t.read_pulse; (r, some t')
          | none => (none, s.tape)
        let sT := { s with tape := pm.2 }
        match pm.1 with
        | some len => { sT with current_pulse := Pulse.new len DUTY_CYCLE }
        | none => sT.stop
      else s
    if !s1.current_pulse.is_done then
      let (b, p') := s1.current_pulse.advance
      { s1 with cia_flag := s1.cia_flag.set_active b, current_pulse := p' }
    else s1
  else s

/-- `n` successive `clock()` calls. -/
def Datassette.clockN (s : Datassette) : Nat → Datassette
  | 0 => s
  | n + 1 => (s.clockN n).clock

/- ### Bit utilities (`util::bit` from zinc64-core, not present under src/). -/

/-- Modelled from the spec: `bit::bit_val` from the absent `util::bit`
module — the value (0 or 1) of bit `n` of a byte, as used by the register
decode tables of §4.3. -/
def bit_val (x n : Nat) : Nat :=
  (x >>> n) &&& 1

/-- Modelled from the spec: `bit::bit_val16`, bit `n` of a 16-bit word. -/
def bit_val16 (x n : Nat) : Nat :=
  (x >>> n) &&& 1

/-- Modelled from the spec: `bit::bit_set` — a byte with bit `n` equal to
`flag` and all other bits clear. -/
def bit_set (n : Nat) (flag : Bool) : Nat :=
  if flag then 1 <<< n else 0

/-- Modelled from the spec: `bit::bit_test` — whether bit `n` of `x` is
set. -/
def bit_test (x n : Nat) : Bool :=
  (x >>> n) &&& 1 == 1

/-- Modelled from the spec: `bit::bit_update` — the byte `x` with bit `n`
set to `flag`. -/
def bit_update (x n : Nat) (flag : Bool) : Nat :=
  if flag then x ||| (1 <<< n) else x &&& (0xFF ^^^ (1 <<< n))

/-- Modelled from the spec: `bit::bit_update16` — the 16-bit word `x` with
bit `n` set to `flag`. -/
def bit_update16 (x n : Nat) (flag : Bool) : Nat :=
  if flag then x ||| (1 <<< n) else x &&& (0xFFFF ^^^ (1 <<< n))

/- ### VIC-II display mode (src/video/vic.rs, lines 66-104). -/

/-- `Mode`: the eight display modes keyed by `(ECM<<2) | (BMM<<1) | MCM`. -/
inductive Mode where
  | Text
  | McText
  | Bitmap
  | McBitmap
  | EcmText
  | InvalidText
  | InvalidBitmap1
  | InvalidBitmap2
deriving DecidableEq

/-- `Mode::value`: the discriminant of the variant. -/
def Mode.value : Mode → Nat
  | .Text => 0x00
  | .McText => 0x01
  | .Bitmap => 0x02
  | .McBitmap => 0x03
  | .EcmText => 0x04
  | .InvalidText => 0x05
  | .InvalidBitmap1 => 0x06
  | .InvalidBitmap2 => 0x07

/-- `Mode::from` (`from` is a Lean keyword): `none` embeds the
`panic!("invalid mode")` arm. -/
def Mode.fromVal : Nat → Option Mode
  | 0x00 => some .Text
  | 0x01 => some .McText
  | 0x02 => some .Bitmap
  | 0x03 => some .McBitmap
  | 0x04 => some .EcmText
  | 0x05 => some .InvalidText
  | 0x06 => some .InvalidBitmap1
  | 0x07 => some .InvalidBitmap2
  | _ => none

/- ### Register addresses (src/video/vic.rs, lines 106-212). -/

/-- `Reg`: the 47 live registers plus `IGNORE` for `0x2f..=0x3f`. -/
inductive Reg where
  | M0X | M0Y | M1X | M1Y | M2X | M2Y | M3X | M3Y
  | M4X | M4Y | M5X | M5Y | M6X | M6Y | M7X | M7Y
  | MX8 | CR1 | RASTER | LPX | LPY | ME | CR2 | MYE
  | MEMPTR | IRR | IMR | MDP | MMC | MXE | MM | MD
  | EC | B0C | B1C | B2C | B3C | MM0 | MM1
  | M0C | M1C | M2C | M3C | M4C | M5C | M6C | M7C
  | IGNORE
deriving DecidableEq

/-- `Reg::from` (`from` is a Lean keyword): `none` embeds the
`panic!("invalid reg")` arm for addresses above `0x3f`. -/
def Reg.fromNat : Nat → Option Reg
  | 0x00 => some .M0X
  | 0x01 => some .M0Y
  | 0x02 => some .M1X
  | 0x03 => some .M1Y
  | 0x04 => some .M2X
  | 0x05 => some .M2Y
  | 0x06 => some .M3X
  | 0x07 => some .M3Y
  | 0x08 => some .M4X
  | 0x09 => some .M4Y
  | 0x0a => some .M5X
  | 0x0b => some .M5Y
  | 0x0c => some .M6X
  | 0x0d => some .M6Y
  | 0x0e => some .M7X
  | 0x0f => some .M7Y
  | 0x10 => some .MX8
  | 0x11 => some .CR1
  | 0x12 => some .RASTER
  | 0x13 => some .LPX
  | 0x14 => some .LPY
  | 0x15 => some .ME
  | 0x16 => some .CR2
  | 0x17 => some .MYE
  | 0x18 => some .MEMPTR
  | 0x19 => some .IRR
  | 0x1a => some .IMR
  | 0x1b => some .MDP
  | 0x1c => some .MMC
  | 0x1d => some .MXE
  | 0x1e => some .MM
  | 0x1f => some .MD
  | 0x20 => some .EC
  | 0x21 => some .B0C
  | 0x22 => some .B1C
  | 0x23 => some .B2C
  | 0x24 => some .B3C
  | 0x25 => some .MM0
  | 0x26 => some .MM1
  | 0x27 => some .M0C
  | 0x28 => some .M1C
  | 0x29 => some .M2C
  | 0x2a => some .M3C
  | 0x2b => some .M4C
  | 0x2c => some .M5C
  | 0x2d => some .M6C
  | 0x2e => some .M7C
  | 0x2f | 0x30 | 0x31 | 0x32 | 0x33 | 0x34 | 0x35 | 0x36 | 0x37
  | 0x38 | 0x39 | 0x3a | 0x3b | 0x3c | 0x3d | 0x3e | 0x3f => some .IGNORE
  | _ => none

/- ### Sprite and Vic state (src/video/vic.rs, lines 34-64, 214-272).
The Rust `Vic` also holds opaque dependencies (`config`, `cpu`, `mem`,
`color_ram`, `rt`) and the register paths never touch them, so they are
omitted.  Arrays indexed only by literal constants in the source are
unrolled into named fields. -/

/-- `Sprite` (vic.rs line 215). -/
structure Sprite where
  enabled : Bool
  x : Nat
  y : Nat
  color : Nat
  expand_x : Bool
  expand_y : Bool
  multicolor : Bool
  priority : Bool
deriving DecidableEq

/-- `Sprite::new`. -/
def Sprite.new : Sprite :=
  { enabled := false, x := 0, y := 0, color := 0
    expand_x := false, expand_y := false, multicolor := false, priority := true }

/-- The `sprites: [Sprite; 8]` array, unrolled. -/
structure Sprites where
  m0 : Sprite
  m1 : Sprite
  m2 : Sprite
  m3 : Sprite
  m4 : Sprite
  m5 : Sprite
  m6 : Sprite
  m7 : Sprite
deriving DecidableEq

/-- The VIC-II register-bank state (programmer-visible fields of `Vic`). -/
structure Vic where
  mode : Mode
  enabled : Bool
  rsel : Bool
  csel : Bool
  scroll_x : Nat
  scroll_y : Nat
  irq_enable : Nat
  irq_status : Nat
  raster : Nat
  raster_compare : Nat
  video_counter : Nat
  char_base : Nat
  video_matrix : Nat
  border_color : Nat
  background_color0 : Nat
  background_color1 : Nat
  background_color2 : Nat
  background_color3 : Nat
  sprites : Sprites
  sprite_multicolor0 : Nat
  sprite_multicolor1 : Nat
  light_pen_pos0 : Nat
  light_pen_pos1 : Nat
deriving DecidableEq

/-- `Vic::new` (vic.rs line 242), restricted to the register-bank fields. -/
def Vic.new : Vic :=
  { mode := .Text
    enabled := true
    rsel := true
    csel := true
    scroll_x := 0
    scroll_y := 3
    irq_enable := 0x00
    irq_status := 0x00
    raster := 0x0100
    raster_compare := 0x00
    video_counter := 0
    char_base := 4096
    video_matrix := 1024
    border_color := 0x0e
    background_color0 := 0x06
    background_color1 := 0
    background_color2 := 0
    background_color3 := 0
    sprites := ⟨Sprite.new, Sprite.new, Sprite.new, Sprite.new,
                Sprite.new, Sprite.new, Sprite.new, Sprite.new⟩
    sprite_multicolor0 := 0
    sprite_multicolor1 := 0
    light_pen_pos0 := 0
    light_pen_pos1 := 0 }

/- ### Register read (src/video/vic.rs, lines 276-405).
`Vic::read` takes `&mut self` but none of its arms assigns a field, so
every arm returns the byte paired with the unchanged state. -/

/-- The body of `Vic::read` after `Reg::from` dispatch: the decoded byte
and the (unchanged) state. -/
def Vic.readReg (s : Vic) : Reg → Nat × Vic
  | .M0X => ((s.sprites.m0.x &&& 0x00ff) &&& 0xFF, s)
  | .M0Y => (s.sprites.m0.y, s)
  | .M1X => ((s.sprites.m1.x &&& 0x00ff) &&& 0xFF, s)
  | .M1Y => (s.sprites.m1.y, s)
  | .M2X => ((s.sprites.m2.x &&& 0x00ff) &&& 0xFF, s)
  | .M2Y => (s.sprites.m2.y, s)
  | .M3X => ((s.sprites.m3.x &&& 0x00ff) &&& 0xFF, s)
  | .M3Y => (s.sprites.m3.y, s)
  | .M4X => ((s.sprites.m4.x &&& 0x00ff) &&& 0xFF, s)
  | .M4Y => (s.sprites.m4.y, s)
  | .M5X => ((s.sprites.m5.x &&& 0x00ff) &&& 0xFF, s)
  | .M5Y => (s.sprites.m5.y, s)
  | .M6X => ((s.sprites.m6.x &&& 0x00ff) &&& 0xFF, s)
  | .M6Y => (s.sprites.m6.y, s)
  | .M7X => ((s.sprites.m7.x &&& 0x00ff) &&& 0xFF, s)
  | .M7Y => (s.sprites.m7.y, s)
  | .MX8 =>
    (bit_val16 s.sprites.m0.x 8 <<< 0 ||| bit_val16 s.sprites.m1.x 8 <<< 1 |||
     bit_val16 s.sprites.m2.x 8 <<< 2 ||| bit_val16 s.sprites.m3.x 8 <<< 3 |||
     bit_val16 s.sprites.m4.x 8 <<< 4 ||| bit_val16 s.sprites.m5.x 8 <<< 5 |||
     bit_val16 s.sprites.m6.x 8 <<< 6 ||| bit_val16 s.sprites.m7.x 8 <<< 7, s)
  | .CR1 =>
    (bit_val16 s.raster 8 <<< 7 ||| bit_val s.mode.value 2 <<< 6 |||
     bit_val s.mode.value 1 <<< 5 ||| bit_set 4 s.enabled |||
     bit_set 3 s.rsel ||| (s.scroll_y &&& 0x07), s)
  | .RASTER => ((s.raster &&& 0x00ff) &&& 0xFF, s)
  | .LPX => (s.light_pen_pos0, s)
  | .LPY => (s.light_pen_pos1, s)
  | .ME =>
    (bit_set 0 s.sprites.m0.enabled ||| bit_set 1 s.sprites.m1.enabled |||
     bit_set 2 s.sprites.m2.enabled ||| bit_set 3 s.sprites.m3.enabled |||
     bit_set 4 s.sprites.m4.enabled ||| bit_set 5 s.sprites.m5.enabled |||
     bit_set 6 s.sprites.m6.enabled ||| bit_set 7 s.sprites.m7.enabled, s)
  | .CR2 =>
    ((1 <<< 5) ||| bit_val s.mode.value 0 <<< 4 ||| bit_set 3 s.csel |||
     (s.scroll_x &&& 0x07) ||| 0xc0, s)
  | .MYE =>
    (bit_set 0 s.sprites.m0.expand_y ||| bit_set 1 s.sprites.m1.expand_y |||
     bit_set 2 s.sprites.m2.expand_y ||| bit_set 3 s.sprites.m3.expand_y |||
     bit_set 4 s.sprites.m4.expand_y ||| bit_set 5 s.sprites.m5.expand_y |||
     bit_set 6 s.sprites.m6.expand_y ||| bit_set 7 s.sprites.m7.expand_y, s)
  | .MEMPTR =>
    -- Source: `(self.video_matrix & 0x3c00 >> 10) as u8) << 4` — Rust
    -- shifts bind tighter than `&`, so this is `video_matrix & 0x000f`,
    -- not `(video_matrix & 0x3c00) >> 10`; likewise for `char_base`.
    (((s.video_matrix &&& (0x3c00 >>> 10)) &&& 0xFF) <<< 4 |||
     ((s.char_base &&& (0x3800 >>> 11)) &&& 0xFF) <<< 1 ||| 0x01, s)
  | .IRR => (s.irq_status, s)
  | .IMR => (s.irq_enable, s)
  | .MDP =>
    (bit_set 0 s.sprites.m0.priority ||| bit_set 1 s.sprites.m1.priority |||
     bit_set 2 s.sprites.m2.priority ||| bit_set 3 s.sprites.m3.priority |||
     bit_set 4 s.sprites.m4.priority ||| bit_set 5 s.sprites.m5.priority |||
     bit_set 6 s.sprites.m6.priority ||| bit_set 7 s.sprites.m7.priority, s)
  | .MMC =>
    (bit_set 0 s.sprites.m0.multicolor ||| bit_set 1 s.sprites.m1.multicolor |||
     bit_set 2 s.sprites.m2.multicolor ||| bit_set 3 s.sprites.m3.multicolor |||
     bit_set 4 s.sprites.m4.multicolor ||| bit_set 5 s.sprites.m5.multicolor |||
     bit_set 6 s.sprites.m6.multicolor ||| bit_set 7 s.sprites.m7.multicolor, s)
  | .MXE =>
    (bit_set 0 s.sprites.m0.expand_x ||| bit_set 1 s.sprites.m1.expand_x |||
     bit_set 2 s.sprites.m2.expand_x ||| bit_set 3 s.sprites.m3.expand_x |||
     bit_set 4 s.sprites.m4.expand_x ||| bit_set 5 s.sprites.m5.expand_x |||
     bit_set 6 s.sprites.m6.expand_x ||| bit_set 7 s.sprites.m7.expand_x, s)
  | .MM => (0xff, s)
  | .MD => (0xff, s)
  | .EC => (s.border_color ||| 0xf0, s)
  | .B0C => (s.background_color0 ||| 0xf0, s)
  | .B1C => (s.background_color1 ||| 0xf0, s)
  | .B2C => (s.background_color2 ||| 0xf0, s)
  | .B3C => (s.background_color3 ||| 0xf0, s)
  | .MM0 => (s.sprite_multicolor0 ||| 0xf0, s)
  | .MM1 => (s.sprite_multicolor1 ||| 0xf0, s)
  | .M0C => (s.sprites.m0.color ||| 0xf0, s)
  | .M1C => (s.sprites.m1.color ||| 0xf0, s)
  | .M2C => (s.sprites.m2.color ||| 0xf0, s)
  | .M3C => (s.sprites.m3.color ||| 0xf0, s)
  | .M4C => (s.sprites.m4.color ||| 0xf0, s)
  | .M5C => (s.sprites.m5.color ||| 0xf0, s)
  | .M6C => (s.sprites.m6.color ||| 0xf0, s)
  | .M7C => (s.sprites.m7.color ||| 0xf0, s)
  | .IGNORE => (0xff, s)

/-- `Vic::read`: `Reg::from` dispatch (`none` = panic on `reg > 0x3f`). -/
def Vic.read (s : Vic) (reg : Nat) : Option (Nat × Vic) :=
  (Reg.fromNat reg).map (fun r => s.readReg r)

/-- The byte returned by `Vic::read`. -/
def Vic.readVal (s : Vic) (reg : Nat) : Option Nat :=
  (s.read reg).map Prod.fst

/- ### Register write (src/video/vic.rs, lines 407-529). -/

/-- The body of `Vic::write` after `Reg::from` dispatch.  `none` embeds the
panic of `Mode::from` on an out-of-range mode value (unreachable because
the mode bits are updated one at a time). -/
def Vic.writeReg (s : Vic) (r : Reg) (value : Nat) : Option Vic :=
  match r with
  | .M0X => some { s with sprites.m0.x := s.sprites.m0.x &&& 0xff00 ||| value }
  | .M0Y => some { s with sprites.m0.y := value }
  | .M1X => some { s with sprites.m1.x := s.sprites.m1.x &&& 0xff00 ||| value }
  | .M1Y => some { s with sprites.m1.y := value }
  | .M2X => some { s with sprites.m2.x := s.sprites.m2.x &&& 0xff00 ||| value }
  | .M2Y => some { s with sprites.m2.y := value }
  | .M3X => some { s with sprites.m3.x := s.sprites.m3.x &&& 0xff00 ||| value }
  | .M3Y => some { s with sprites.m3.y := value }
  | .M4X => some { s with sprites.m4.x := s.sprites.m4.x &&& 0xff00 ||| value }
  | .M4Y => some { s with sprites.m4.y := value }
  | .M5X => some { s with sprites.m5.x := s.sprites.m5.x &&& 0xff00 ||| value }
  | .M5Y => some { s with sprites.m5.y := value }
  | .M6X => some { s with sprites.m6.x := s.sprites.m6.x &&& 0xff00 ||| value }
  | .M6Y => some { s with sprites.m6.y := value }
  | .M7X => some { s with sprites.m7.x := s.sprites.m7.x &&& 0xff00 ||| value }
  | .M7Y => some { s with sprites.m7.y := value }
  | .MX8 => some { s with
      sprites.m0.x := bit_update16 s.sprites.m0.x 8 (bit_test value 0)
      sprites.m1.x := bit_update16 s.sprites.m1.x 8 (bit_test value 1)
      sprites.m2.x := bit_update16 s.sprites.m2.x 8 (bit_test value 2)
      sprites.m3.x := bit_update16 s.sprites.m3.x 8 (bit_test value 3)
      sprites.m4.x := bit_update16 s.sprites.m4.x 8 (bit_test value 4)
      sprites.m5.x := bit_update16 s.sprites.m5.x 8 (bit_test value 5)
      sprites.m6.x := bit_update16 s.sprites.m6.x 8 (bit_test value 6)
      sprites.m7.x := bit_update16 s.sprites.m7.x 8 (bit_test value 7) }
  | .CR1 =>
    let mode := bit_update s.mode.value 2 (bit_test value 6)
    -- The source also computes `mode2 = bit_update(mode, 1, bit_test(value, 5))`
    -- (the BMM update) but then assigns `Mode::from(mode)`, leaving `mode2`
    -- unused; the embedding reproduces that.
    let _mode2 := bit_update mode 1 (bit_test value 5)
    (Mode.fromVal mode).map fun md =>
      { s with
        raster_compare := bit_update16 s.raster_compare 8 (bit_test value 7)
        mode := md
        enabled := bit_test value 4
        rsel := bit_test value 3
        scroll_y := value &&& 0x07 }
  | .RASTER => some { s with raster_compare := s.raster_compare &&& 0xff00 ||| value }
  | .LPX => some { s with light_pen_pos0 := value }
  | .LPY => some { s with light_pen_pos1 := value }
  | .ME => some { s with
      sprites.m0.enabled := bit_test value 0
      sprites.m1.enabled := bit_test value 1
      sprites.m2.enabled := bit_test value 2
      sprites.m3.enabled := bit_test value 3
      sprites.m4.enabled := bit_test value 4
      sprites.m5.enabled := bit_test value 5
      sprites.m6.enabled := bit_test value 6
      sprites.m7.enabled := bit_test value 7 }
  | .CR2 =>
    let mode := bit_update s.mode.value 0 (bit_test value 4)
    (Mode.fromVal mode).map fun md =>
      { s with
        mode := md
        csel := bit_test value 3
        scroll_x := value &&& 0x07 }
  | .MYE => some { s with
      sprites.m0.expand_y := bit_test value 0
      sprites.m1.expand_y := bit_test value 1
      sprites.m2.expand_y := bit_test value 2
      sprites.m3.expand_y := bit_test value 3
      sprites.m4.expand_y := bit_test value 4
      sprites.m5.expand_y := bit_test value 5
      sprites.m6.expand_y := bit_test value 6
      sprites.m7.expand_y := bit_test value 7 }
  | .MEMPTR => some { s with
      video_matrix := ((value &&& 0xf0) >>> 4) <<< 10
      char_base := ((value &&& 0x0f) >>> 1) <<< 11 }
  | .IRR => some { s with irq_status := value }
  | .IMR => some { s with irq_enable := value }
  | .MDP => some { s with
      sprites.m0.priority := bit_test value 0
      sprites.m1.priority := bit_test value 1
      sprites.m2.priority := bit_test value 2
      sprites.m3.priority := bit_test value 3
      sprites.m4.priority := bit_test value 4
      sprites.m5.priority := bit_test value 5
      sprites.m6.priority := bit_test value 6
      sprites.m7.priority := bit_test value 7 }
  | .MMC => some { s with
      sprites.m0.multicolor := bit_test value 0
      sprites.m1.multicolor := bit_test value 1
      sprites.m2.multicolor := bit_test value 2
      sprites.m3.multicolor := bit_test value 3
      sprites.m4.multicolor := bit_test value 4
      sprites.m5.multicolor := bit_test value 5
      sprites.m6.multicolor := bit_test value 6
      sprites.m7.multicolor := bit_test value 7 }
  | .MXE => some { s with
      sprites.m0.expand_x := bit_test value 0
      sprites.m1.expand_x := bit_test value 1
      sprites.m2.expand_x := bit_test value 2
      sprites.m3.expand_x := bit_test value 3
      sprites.m4.expand_x := bit_test value 4
      sprites.m5.expand_x := bit_test value 5
      sprites.m6.expand_x := bit_test value 6
      sprites.m7.expand_x := bit_test value 7 }
  | .MM => some s
  | .MD => some s
  | .EC => some { s with border_color := value &&& 0x0f }
  | .B0C => some { s with background_color0 := value &&& 0x0f }
  | .B1C => some { s with background_color1 := value &&& 0x0f }
  | .B2C => some { s with background_color2 := value &&& 0x0f }
  | .B3C => some { s with background_color3 := value &&& 0x0f }
  | .MM0 => some { s with sprite_multicolor0 := value &&& 0x0f }
  | .MM1 => some { s with sprite_multicolor1 := value &&& 0x0f }
  | .M0C => some { s with sprites.m0.color := value &&& 0x0f }
  | .M1C => some { s with sprites.m1.color := value &&& 0x0f }
  | .M2C => some { s with sprites.m2.color := value &&& 0x0f }
  | .M3C => some { s with sprites.m3.color := value &&& 0x0f }
  | .M4C => some { s with sprites.m4.color := value &&& 0x0f }
  | .M5C => some { s with sprites.m5.color := value &&& 0x0f }
  | .M6C => some { s with sprites.m6.color := value &&& 0x0f }
  | .M7C => some { s with sprites.m7.color := value &&& 0x0f }
  | .IGNORE => some s

/-- `Vic::write`: `Reg::from` dispatch (`none` = panic on `reg > 0x3f`). -/
def Vic.write (s : Vic) (reg value : Nat) : Option Vic :=
  (Reg.fromNat reg).bind (fun r => s.writeReg r value)

/- ### Helper lemmas. -/

/-- Closed-form of iterated `Pulse.advance` from an arbitrary pulse state:
the first `min a n` levels are low, the rest high, and both counters
decrease by `n`. -/
theorem Pulse.run_spec (n : Nat) : ∀ a r : Nat,
    Pulse.run ⟨a, r⟩ n =
      (List.replicate (min a n) false ++ List.replicate (n - a) true,
       ⟨a - n, r - n⟩) := by
  induction n with
  | zero => intro a r; simp [Pulse.run]
  | succ n ih =>
    intro a r
    cases a with
    | zero =>
      simp only [Pulse.run, Pulse.advance, ih]
      simp [List.replicate_succ, Prod.mk.injEq, Pulse.mk.injEq]
      all_goals omega
    | succ a =>
      have hne : ((a + 1 : Nat) == 0) = false := by simp
      simp only [Pulse.run, Pulse.advance, ih, hne, Bool.false_eq_true, if_false]
      simp [Nat.succ_min_succ, Nat.succ_sub_succ, List.replicate_succ,
        Prod.mk.injEq, Pulse.mk.injEq]
      all_goals omega

/-- The number of low levels in a list of pin levels. -/
def countFalse : List Bool → Nat
  | [] => 0
  | b :: l => (if b then 0 else 1) + countFalse l

theorem countFalse_append (l1 l2 : List Bool) :
    countFalse (l1 ++ l2) = countFalse l1 + countFalse l2 := by
  induction l1 with
  | nil => simp [countFalse]
  | cons b l ih => simp [countFalse, ih]; omega

theorem countFalse_replicate_false (n : Nat) :
    countFalse (List.replicate n false) = n := by
  induction n with
  | zero => simp [countFalse]
  | succ n ih => simp [List.replicate_succ, countFalse, ih]; omega

theorem countFalse_replicate_true (n : Nat) :
    countFalse (List.replicate n true) = 0 := by
  induction n with
  | zero => simp [countFalse]
  | succ n ih => simp [List.replicate_succ, countFalse, ih]

set_option maxRecDepth 4096 in
/-- A byte's low nibble OR `0xF0` equals the byte OR `0xF0`. -/
theorem low_nibble_or_f0 : ∀ v < 256, (v &&& 0x0F) ||| 0xF0 = v ||| 0xF0 := by
  decide

theorem or_lt_512 {x y : Nat} (hx : x < 512) (hy : y < 512) : x ||| y < 512 := by
  have h := Nat.or_lt_two_pow (x := x) (y := y) (n := 9)
  simp only [show (2 : Nat) ^ 9 = 512 from rfl] at h
  exact h hx hy

theorem lowbyte_or_lt {x v : Nat} (hx : x < 512) (hv : v < 256) :
    x &&& 0xff00 ||| v < 512 :=
  or_lt_512 (Nat.lt_of_le_of_lt Nat.and_le_left hx) (by omega)

theorem bit_update16_lt_512 {x : Nat} (b : Bool) (hx : x < 512) :
    bit_update16 x 8 b < 512 := by
  cases b with
  | true =>
    simpa [bit_update16] using or_lt_512 hx (by decide)
  | false =>
    simpa [bit_update16] using Nat.lt_of_le_of_lt Nat.and_le_left hx

theorem and_0x0f_lt (v : Nat) : v &&& 0x0F < 0x10 :=
  Nat.lt_succ_of_le Nat.and_le_right

theorem and_0x07_lt (v : Nat) : v &&& 0x07 < 8 :=
  Nat.lt_succ_of_le Nat.and_le_right

theorem Mode.value_lt (m : Mode) : m.value < 8 := by
  cases m <;> decide

theorem Datassette.clock_motor_high {s : Datassette}
    (h : s.cpu_io_port.get_value.testBit 5 = true) : s.clock = s := by
  simp [Datassette.clock, Datassette.is_playing, h]

/- ### Concrete configurations used by the end-to-end scenarios. -/

/-- A tape that yields the single pulse length 8 and then end-of-tape. -/
def tapeSingle8 : Tape := ⟨[8], 0⟩

/-- The CPU I/O port with the C64 direction assignment of §6 (bits 0-3 and
5 outputs, bit 4 input), the motor bit (output bit 5) written 0 and the
input latch idle high. -/
def portMotorOn : IoPort := ⟨0x2F, 0x00, 0xFF⟩

/-- The same port with the motor bit (output bit 5) written 1 (motor off). -/
def portMotorOff : IoPort := ⟨0x2F, 0x20, 0xFF⟩

/-- A Datassette with the single-pulse tape attached and `play()` called,
motor bit 0. -/
def dsPulseScenario : Datassette :=
  ((Datassette.new ⟨true⟩ portMotorOn).attach tapeSingle8).play

/- ### Claims. -/

/-- C4 (refuted as stated): at `length = 86,000,000` the `u32` product
`length * 50 = 4,300,000,000` wraps modulo `2^32` to `5,032,704`, so
`low_cycles = 50,327` instead of `⌊length/2⌋ = 43,000,000` and the claimed
level pattern fails. -/
theorem pulse_advance_levels_counterexample :
    ¬(((Pulse.new 86000000 50).run 86000000).1 =
        List.replicate (86000000 / 2) false ++
          List.replicate (86000000 - 86000000 / 2) true ∧
      ((Pulse.new 86000000 50).run 86000000).2.is_done = true) := by
  intro h
  obtain ⟨h1, _⟩ := h
  have hnew : Pulse.new 86000000 50 = ⟨50327, 86000000⟩ := by decide
  rw [hnew, Pulse.run_spec] at h1
  have hc := congrArg countFalse h1
  rw [countFalse_append, countFalse_append, countFalse_replicate_false,
    countFalse_replicate_true, countFalse_replicate_false,
    countFalse_replicate_true] at hc
  omega

/-- C4 (amended): for every `length` with `2 ≤ length` and
`length * 50 < 2^32` (no `u32` overflow in `Pulse::new`, i.e.
`length ≤ 85,899,345`), `Pulse::new(length, 50)` returns `false` from
exactly the first `⌊length/2⌋` calls to `advance` and `true` from the
remaining `length - ⌊length/2⌋` calls, and `is_done()` holds after
`length` calls. -/
theorem pulse_advance_levels (L : Nat) (_h : 2 ≤ L)
    (hbound : L * 50 < 4294967296) :
    ((Pulse.new L 50).run L).1 =
      List.replicate (L / 2) false ++ List.replicate (L - L / 2) true ∧
    ((Pulse.new L 50).run L).2.is_done = true := by
  have h50 : L * (100 - 50) % 4294967296 / 100 = L / 2 := by omega
  have hnew : Pulse.new L 50 = ⟨L / 2, L⟩ := by
    simp [Pulse.new, h50]
  rw [hnew, Pulse.run_spec]
  refine ⟨?_, ?_⟩
  · simp [Nat.min_eq_left (Nat.div_le_self L 2)]
  · simp [Pulse.is_done]

/-- Witness for C4 at `length = 5`. -/
theorem pulse_advance_levels_witness :
    (2 ≤ 5 ∧ 5 * 50 < 4294967296) ∧
    (((Pulse.new 5 50).run 5).1 =
      List.replicate (5 / 2) false ++ List.replicate (5 - 5 / 2) true ∧
    ((Pulse.new 5 50).run 5).2.is_done = true) :=
  ⟨⟨by decide, by decide⟩, pulse_advance_levels 5 (by decide) (by decide)⟩

/-- C6: while the motor bit (bit 5) of the CPU I/O port's observable value
is HIGH, any number of `clock()` calls leaves the whole Datassette state
(pulse counters, playing flag, tape position, CIA flag pin, I/O port)
unchanged. -/
theorem clock_motor_high_noop (s : Datassette) (n : Nat)
    (h : s.cpu_io_port.get_value.testBit 5 = true) :
    s.clockN n = s := by
  induction n with
  | zero => rfl
  | succ n ih =>
    show (s.clockN n).clock = s
    rw [ih, Datassette.clock_motor_high h]

/-- Witness for C6: a playing Datassette with the motor bit high is
unchanged by three `clock()` calls. -/
theorem clock_motor_high_noop_witness :
    (Datassette.mk ⟨false⟩ portMotorOff true (some tapeSingle8)
        (Pulse.new 8 50)).cpu_io_port.get_value.testBit 5 = true ∧
    (Datassette.mk ⟨false⟩ portMotorOff true (some tapeSingle8)
        (Pulse.new 8 50)).clockN 3 =
      Datassette.mk ⟨false⟩ portMotorOff true (some tapeSingle8)
        (Pulse.new 8 50) :=
  ⟨by decide,
   clock_motor_high_noop
     (Datassette.mk ⟨false⟩ portMotorOff true (some tapeSingle8)
       (Pulse.new 8 50)) 3 (by decide)⟩

/-- C9: calling `play()` with no tape attached changes nothing — the
playing flag, the switch-sense input bit and every other part of the
Datassette and wire state are untouched. -/
theorem play_without_tape_noop (s : Datassette) (h : s.tape = none) :
    s.play = s := by
  simp [Datassette.play, h]

/-- Witness for C9 on a freshly-constructed Datassette. -/
theorem play_without_tape_noop_witness :
    (Datassette.new ⟨false⟩ portMotorOn).tape = none ∧
    (Datassette.new ⟨false⟩ portMotorOn).play =
      Datassette.new ⟨false⟩ portMotorOn :=
  ⟨rfl, play_without_tape_noop (Datassette.new ⟨false⟩ portMotorOn) rfl⟩

/-- C3: with a tape yielding pulse length 8 then end-of-tape, after
`play()` and motor bit 0, the ten successive `clock()` calls drive the
flag pin LOW on cycles 1-4 and HIGH on cycles 5-8, and on cycle 9 the tape
returns empty, the device stops, and `is_playing()` is false and stays
false. -/
theorem datassette_pulse_delivery :
    ((dsPulseScenario.clockN 1).cia_flag.active = false ∧
     (dsPulseScenario.clockN 2).cia_flag.active = false ∧
     (dsPulseScenario.clockN 3).cia_flag.active = false ∧
     (dsPulseScenario.clockN 4).cia_flag.active = false) ∧
    ((dsPulseScenario.clockN 5).cia_flag.active = true ∧
     (dsPulseScenario.clockN 6).cia_flag.active = true ∧
     (dsPulseScenario.clockN 7).cia_flag.active = true ∧
     (dsPulseScenario.clockN 8).cia_flag.active = true) ∧
    ((dsPulseScenario.clockN 8).is_playing = true ∧
     (dsPulseScenario.clockN 9).playing = false ∧
     (dsPulseScenario.clockN 9).is_playing = false ∧
     (dsPulseScenario.clockN 10).is_playing = false) := by
  decide

/-- C1 (refuted): `read(MEMPTR)` does not decode `video_matrix >> 10` and
`char_base >> 11`; due to `&` binding looser than `>>` in the source the
masks collapse to `video_matrix & 0xF` and `char_base & 0x7`, which are 0
for any aligned pointer.  At the fresh state (`video_matrix = 0x0400`,
`char_base = 0x1000`) the read returns `0x01` although the claimed
encoding has bits 7-4 equal to 1; and after `write(0x18, 0x14)` the read
returns `0x01`, not `0x14 | 0x01 = 0x15`. -/
theorem memptr_read_wrong_mask :
    Vic.new.readVal 0x18 = some 0x01 ∧
    (Vic.new.video_matrix >>> 10) &&& 0x0F = 0x01 ∧
    ((Vic.new.write 0x18 0x14).bind fun s2 => s2.readVal 0x18) = some 0x01 ∧
    (0x01 : Nat) ≠ 0x14 ||| 0x01 := by
  decide

/-- C2 (refuted): writing the three-bit mode `m = 2` (BMM) via CR1/CR2 and
reading the three positions back yields 0, not 2: the CR1 write computes
the BMM-updated mode value into a dead local and stores the mode with
only the ECM bit applied, so the BMM bit never reaches the state. -/
theorem cr1_write_drops_bmm :
    ((Vic.new.write 0x11 0x20).bind fun s1 =>
      (s1.write 0x16 0x00).bind fun s2 =>
        (s2.readVal 0x11).bind fun a =>
          (s2.readVal 0x16).map fun b =>
            bit_val a 6 <<< 2 ||| bit_val a 5 <<< 1 ||| bit_val b 4) = some 0 ∧
    (0 : Nat) ≠ 2 := by
  decide

/-- C5: writing any byte `v` to a low-nibble colour register
(`0x20..=0x2E`) and reading it back returns `v | 0xF0`. -/
theorem color_register_roundtrip (s : Vic) (r v : Nat)
    (h1 : 0x20 ≤ r) (h2 : r ≤ 0x2E) (h3 : v ≤ 0xFF) :
    ((s.write r v).bind fun s2 => s2.readVal r) = some (v ||| 0xF0) := by
  have hv : (v &&& 0x0F) ||| 0xF0 = v ||| 0xF0 := low_nibble_or_f0 v (by omega)
  interval_cases r <;> exact congrArg some hv

/-- Witness for C5: writing `0x55` to B1C (0x22) reads back `0xF5`. -/
theorem color_register_roundtrip_witness :
    (0x20 ≤ 0x22 ∧ 0x22 ≤ 0x2E ∧ 0x55 ≤ 0xFF) ∧
    ((Vic.new.write 0x22 0x55).bind fun s2 => s2.readVal 0x22) =
      some (0x55 ||| 0xF0) :=
  ⟨⟨by decide, by decide, by decide⟩,
   color_register_roundtrip Vic.new 0x22 0x55 (by decide) (by decide) (by decide)⟩

/-- C8: every register address in `0x2F..=0x3F` reads as `0xFF` and writes
there leave the register bank unchanged. -/
theorem tail_registers_inert (s : Vic) (reg v : Nat)
    (h1 : 0x2F ≤ reg) (h2 : reg ≤ 0x3F) :
    s.readVal reg = some 0xFF ∧ s.write reg v = some s := by
  interval_cases reg <;> exact ⟨rfl, rfl⟩

/-- Witness for C8 at register 0x30. -/
theorem tail_registers_inert_witness :
    (0x2F ≤ 0x30 ∧ 0x30 ≤ 0x3F) ∧
    (Vic.new.readVal 0x30 = some 0xFF ∧ Vic.new.write 0x30 0xAB = some Vic.new) :=
  ⟨⟨by decide, by decide⟩,
   tail_registers_inert Vic.new 0x30 0xAB (by decide) (by decide)⟩

/-- C10: `Vic::read` is side-effect free — for every register address in
`0x00..=0x3F` the read succeeds and returns the register bank unchanged;
in particular reading IRR (0x19) does not clear `irq_status` and reading
MM/MD (0x1E/0x1F) latches nothing. -/
theorem read_preserves_state (s : Vic) (reg : Nat) (h : reg ≤ 0x3F) :
    (s.read reg).map Prod.snd = some s := by
  interval_cases reg <;> rfl

/-- Witness for C10 at IRR (0x19). -/
theorem read_preserves_state_witness :
    0x19 ≤ 0x3F ∧ (Vic.new.read 0x19).map Prod.snd = some Vic.new :=
  ⟨by decide, read_preserves_state Vic.new 0x19 (by decide)⟩

/- ### The at-rest invariant (spec §3). -/

/-- Per-sprite part of the at-rest invariant: colour is a nibble and the
9-bit x coordinate is below 512. -/
def SpriteInv (sp : Sprite) : Prop :=
  sp.color < 0x10 ∧ sp.x < 512

/-- The at-rest invariant of §3: all colour values are nibbles, sprite x
coordinates are 9-bit, scroll registers are 3-bit, raster counters are
9-bit, and the mode value is a three-bit pattern. -/
def VicInv (s : Vic) : Prop :=
  s.border_color < 0x10 ∧
  s.background_color0 < 0x10 ∧ s.background_color1 < 0x10 ∧
  s.background_color2 < 0x10 ∧ s.background_color3 < 0x10 ∧
  s.sprite_multicolor0 < 0x10 ∧ s.sprite_multicolor1 < 0x10 ∧
  SpriteInv s.sprites.m0 ∧ SpriteInv s.sprites.m1 ∧ SpriteInv s.sprites.m2 ∧
  SpriteInv s.sprites.m3 ∧ SpriteInv s.sprites.m4 ∧ SpriteInv s.sprites.m5 ∧
  SpriteInv s.sprites.m6 ∧ SpriteInv s.sprites.m7 ∧
  s.scroll_x < 8 ∧ s.scroll_y < 8 ∧
  s.raster < 512 ∧ s.raster_compare < 512 ∧
  s.mode.value < 8

instance (sp : Sprite) : Decidable (SpriteInv sp) := by
  unfold SpriteInv; infer_instance

instance (s : Vic) : Decidable (VicInv s) := by
  unfold VicInv; infer_instance

/-- `Vic::write` after register dispatch preserves the at-rest invariant. -/
theorem writeReg_inv (s : Vic) (r : Reg) (v : Nat) (s' : Vic)
    (h : VicInv s) (hv : v < 256) (hw : s.writeReg r v = some s') :
    VicInv s' := by
  obtain ⟨h1, h2, h3, h4, h5, h6, h7, h8, h9, h10, h11, h12, h13, h14, h15,
    h16, h17, h18, h19, h20⟩ := h
  cases r with
  | CR1 =>
    simp only [Vic.writeReg] at hw
    rcases hm : Mode.fromVal (bit_update s.mode.value 2 (bit_test v 6))
        with _ | md
    · rw [hm] at hw; simp at hw
    · rw [hm] at hw
      simp only [Option.map_some', Option.some.injEq] at hw
      subst hw
      exact ⟨h1, h2, h3, h4, h5, h6, h7, h8, h9, h10, h11, h12, h13, h14, h15,
        h16, and_0x07_lt v, h18, bit_update16_lt_512 _ h19, Mode.value_lt md⟩
  | CR2 =>
    simp only [Vic.writeReg] at hw
    rcases hm : Mode.fromVal (bit_update s.mode.value 0 (bit_test v 4))
        with _ | md
    · rw [hm] at hw; simp at hw
    · rw [hm] at hw
      simp only [Option.map_some', Option.some.injEq] at hw
      subst hw
      exact ⟨h1, h2, h3, h4, h5, h6, h7, h8, h9, h10, h11, h12, h13, h14, h15,
        and_0x07_lt v, h17, h18, h19, Mode.value_lt md⟩
  | M0X =>
    simp only [Vic.writeReg, Option.some.injEq] at hw
    subst hw
    exact ⟨h1, h2, h3, h4, h5, h6, h7, ⟨h8.1, lowbyte_or_lt h8.2 hv⟩, h9, h10,
      h11, h12, h13, h14, h15, h16, h17, h18, h19, h20⟩
  | M1X =>
    simp only [Vic.writeReg, Option.some.injEq] at hw
    subst hw
    exact ⟨h1, h2, h3, h4, h5, h6, h7, h8, ⟨h9.1, lowbyte_or_lt h9.2 hv⟩, h10,
      h11, h12, h13, h14, h15, h16, h17, h18, h19, h20⟩
  | M2X =>
    simp only [Vic.writeReg, Option.some.injEq] at hw
    subst hw
    exact ⟨h1, h2, h3, h4, h5, h6, h7, h8, h9, ⟨h10.1, lowbyte_or_lt h10.2 hv⟩,
      h11, h12, h13, h14, h15, h16, h17, h18, h19, h20⟩
  | M3X =>
    simp only [Vic.writeReg, Option.some.injEq] at hw
    subst hw
    exact ⟨h1, h2, h3, h4, h5, h6, h7, h8, h9, h10,
      ⟨h11.1, lowbyte_or_lt h11.2 hv⟩, h12, h13, h14, h15, h16, h17, h18, h19, h20⟩
  | M4X =>
    simp only [Vic.writeReg, Option.some.injEq] at hw
    subst hw
    exact ⟨h1, h2, h3, h4, h5, h6, h7, h8, h9, h10, h11,
      ⟨h12.1, lowbyte_or_lt h12.2 hv⟩, h13, h14, h15, h16, h17, h18, h19, h20⟩
  | M5X =>
    simp only [Vic.writeReg, Option.some.injEq] at hw
    subst hw
    exact ⟨h1, h2, h3, h4, h5, h6, h7, h8, h9, h10, h11, h12,
      ⟨h13.1, lowbyte_or_lt h13.2 hv⟩, h14, h15, h16, h17, h18, h19, h20⟩
  | M6X =>
    simp only [Vic.writeReg, Option.some.injEq] at hw
    subst hw
    exact ⟨h1, h2, h3, h4, h5, h6, h7, h8, h9, h10, h11, h12, h13,
      ⟨h14.1, lowbyte_or_lt h14.2 hv⟩, h15, h16, h17, h18, h19, h20⟩
  | M7X =>
    simp only [Vic.writeReg, Option.some.injEq] at hw
    subst hw
    exact ⟨h1, h2, h3, h4, h5, h6, h7, h8, h9, h10, h11, h12, h13, h14,
      ⟨h15.1, lowbyte_or_lt h15.2 hv⟩, h16, h17, h18, h19, h20⟩
  | MX8 =>
    simp only [Vic.writeReg, Option.some.injEq] at hw
    subst hw
    exact ⟨h1, h2, h3, h4, h5, h6, h7,
      ⟨h8.1, bit_update16_lt_512 _ h8.2⟩, ⟨h9.1, bit_update16_lt_512 _ h9.2⟩,
      ⟨h10.1, bit_update16_lt_512 _ h10.2⟩, ⟨h11.1, bit_update16_lt_512 _ h11.2⟩,
      ⟨h12.1, bit_update16_lt_512 _ h12.2⟩, ⟨h13.1, bit_update16_lt_512 _ h13.2⟩,
      ⟨h14.1, bit_update16_lt_512 _ h14.2⟩, ⟨h15.1, bit_update16_lt_512 _ h15.2⟩,
      h16, h17, h18, h19, h20⟩
  | RASTER =>
    simp only [Vic.writeReg, Option.some.injEq] at hw
    subst hw
    exact ⟨h1, h2, h3, h4, h5, h6, h7, h8, h9, h10, h11, h12, h13, h14, h15,
      h16, h17, h18, lowbyte_or_lt h19 hv, h20⟩
  | EC =>
    simp only [Vic.writeReg, Option.some.injEq] at hw
    subst hw
    exact ⟨and_0x0f_lt v, h2, h3, h4, h5, h6, h7, h8, h9, h10, h11, h12, h13,
      h14, h15, h16, h17, h18, h19, h20⟩
  | B0C =>
    simp only [Vic.writeReg, Option.some.injEq] at hw
    subst hw
    exact ⟨h1, and_0x0f_lt v, h3, h4, h5, h6, h7, h8, h9, h10, h11, h12, h13,
      h14, h15, h16, h17, h18, h19, h20⟩
  | B1C =>
    simp only [Vic.writeReg, Option.some.injEq] at hw
    subst hw
    exact ⟨h1, h2, and_0x0f_lt v, h4, h5, h6, h7, h8, h9, h10, h11, h12, h13,
      h14, h15, h16, h17, h18, h19, h20⟩
  | B2C =>
    simp only [Vic.writeReg, Option.some.injEq] at hw
    subst hw
    exact ⟨h1, h2, h3, and_0x0f_lt v, h5, h6, h7, h8, h9, h10, h11, h12, h13,
      h14, h15, h16, h17, h18, h19, h20⟩
  | B3C =>
    simp only [Vic.writeReg, Option.some.injEq] at hw
    subst hw
    exact ⟨h1, h2, h3, h4, and_0x0f_lt v, h6, h7, h8, h9, h10, h11, h12, h13,
      h14, h15, h16, h17, h18, h19, h20⟩
  | MM0 =>
    simp only [Vic.writeReg, Option.some.injEq] at hw
    subst hw
    exact ⟨h1, h2, h3, h4, h5, and_0x0f_lt v, h7, h8, h9, h10, h11, h12, h13,
      h14, h15, h16, h17, h18, h19, h20⟩
  | MM1 =>
    simp only [Vic.writeReg, Option.some.injEq] at hw
    subst hw
    exact ⟨h1, h2, h3, h4, h5, h6, and_0x0f_lt v, h8, h9, h10, h11, h12, h13,
      h14, h15, h16, h17, h18, h19, h20⟩
  | M0C =>
    simp only [Vic.writeReg, Option.some.injEq] at hw
    subst hw
    exact ⟨h1, h2, h3, h4, h5, h6, h7, ⟨and_0x0f_lt v, h8.2⟩, h9, h10, h11,
      h12, h13, h14, h15, h16, h17, h18, h19, h20⟩
  | M1C =>
    simp only [Vic.writeReg, Option.some.injEq] at hw
    subst hw
    exact ⟨h1, h2, h3, h4, h5, h6, h7, h8, ⟨and_0x0f_lt v, h9.2⟩, h10, h11,
      h12, h13, h14, h15, h16, h17, h18, h19, h20⟩
  | M2C =>
    simp only [Vic.writeReg, Option.some.injEq] at hw
    subst hw
    exact ⟨h1, h2, h3, h4, h5, h6, h7, h8, h9, ⟨and_0x0f_lt v, h10.2⟩, h11,
      h12, h13, h14, h15, h16, h17, h18, h19, h20⟩
  | M3C =>
    simp only [Vic.writeReg, Option.some.injEq] at hw
    subst hw
    exact ⟨h1, h2, h3, h4, h5, h6, h7, h8, h9, h10, ⟨and_0x0f_lt v, h11.2⟩,
      h12, h13, h14, h15, h16, h17, h18, h19, h20⟩
  | M4C =>
    simp only [Vic.writeReg, Option.some.injEq] at hw
    subst hw
    exact ⟨h1, h2, h3, h4, h5, h6, h7, h8, h9, h10, h11, ⟨and_0x0f_lt v, h12.2⟩,
      h13, h14, h15, h16, h17, h18, h19, h20⟩
  | M5C =>
    simp only [Vic.writeReg, Option.some.injEq] at hw
    subst hw
    exact ⟨h1, h2, h3, h4, h5, h6, h7, h8, h9, h10, h11, h12,
      ⟨and_0x0f_lt v, h13.2⟩, h14, h15, h16, h17, h18, h19, h20⟩
  | M6C =>
    simp only [Vic.writeReg, Option.some.injEq] at hw
    subst hw
    exact ⟨h1, h2, h3, h4, h5, h6, h7, h8, h9, h10, h11, h12, h13,
      ⟨and_0x0f_lt v, h14.2⟩, h15, h16, h17, h18, h19, h20⟩
  | M7C =>
    simp only [Vic.writeReg, Option.some.injEq] at hw
    subst hw
    exact ⟨h1, h2, h3, h4, h5, h6, h7, h8, h9, h10, h11, h12, h13, h14,
      ⟨and_0x0f_lt v, h15.2⟩, h16, h17, h18, h19, h20⟩
  | _ =>
    simp only [Vic.writeReg, Option.some.injEq] at hw
    subst hw
    exact ⟨h1, h2, h3, h4, h5, h6, h7, h8, h9, h10, h11, h12, h13, h14, h15,
      h16, h17, h18, h19, h20⟩

/-- C7: the at-rest invariant holds of the freshly constructed register
bank and is preserved by `write(reg, value)` for every register index in
`0x00..=0x3F` and every byte value. -/
theorem vic_invariant :
    VicInv Vic.new ∧
    ∀ (s : Vic) (reg v : Nat) (s' : Vic),
      VicInv s → reg ≤ 0x3F → v ≤ 0xFF → Vic.write s reg v = some s' →
      VicInv s' := by
  refine ⟨by decide, ?_⟩
  intro s reg v s' h _hreg hv hw
  unfold Vic.write at hw
  rcases hfr : Reg.fromNat reg with _ | r
  · rw [hfr] at hw; simp at hw
  · rw [hfr] at hw
    exact writeReg_inv s r v s' h (by omega) hw

/-- Witness for C7: the invariant holds after writing `0x07` to EC on the
fresh register bank. -/
theorem vic_invariant_witness :
    (0x20 ≤ 0x3F ∧ 0x07 ≤ 0xFF) ∧
    VicInv ((Vic.new.write 0x20 0x07).getD Vic.new) :=
  ⟨⟨by decide, by decide⟩,
   vic_invariant.2 Vic.new 0x20 0x07 ((Vic.new.write 0x20 0x07).getD Vic.new)
     vic_invariant.1 (by decide) (by decide) rfl⟩

